import Mathlib

/-!
Shallow embedding of the loan-repayment reconciliation subsystem of the
alumni-backend repository.

Sources embedded here:
* `src/routes/payments-mongo.ts` (MTN variant): the `POST /initiate` and
  `POST /callback` handlers.
* `src/routes/payments-mongo.ts` (CRUD variant): the `POST /`, `PUT /:id`
  payment handlers.
* `src/routes/auth.ts`: the `GET /` (all loans) and `GET /mine` loan read
  handlers, which recompute an outstanding balance from the payment ledger.
* `src/models/Loan.ts` and `src/models/Payment.ts`: the two Mongoose schemas.

Modelling conventions: MongoDB documents become Lean structures; a collection
is a `List` of documents in insertion order; `Model.findOne` / `findById` is
`List.find?` on the relevant key; `findByIdAndUpdate` updates the first (and,
since `_id` is unique, only) matching document via `updateFirst`; the unique
index on `Payment.transaction_id` makes saving a duplicate fail (modelled by
`insertPayment` returning `none`, which the route handlers turn into a 500).
Amounts are integers (`Int`), ids and statuses are strings, exactly as stored.
Outcomes of the two outbound MTN HTTP calls (token fetch, request-to-pay) are
passed in as booleans, fresh Mongo `_id` / uuid values as parameters.
Timestamps, logging and the user-profile enrichment fields of the loan read
handlers are not referenced by any claim and are omitted.
-/

namespace AlumniBackend

/-- A document of the `payments` collection (`src/models/Payment.ts`).
`id` is the Mongo `_id`; `transaction_id` carries a unique index; `status` is
constrained by the schema enum to `PENDING`, `SUCCESSFUL` or `FAILED`.
The untouched fields `sqlId`, `loan_sql_id`, `user_uid`, `payer_uid`,
`method`, `access_number` and the timestamps are omitted. -/
structure Payment where
  id : String
  transaction_id : String
  loan_id : String
  user_id : String
  amount : Int
  status : String
  external_ref : Option String
deriving DecidableEq, Repr

/-- A document of the `loans` collection (`src/models/Loan.ts`). The schema
puts no lower bound on `outstanding_balance`. `sqlId`, the approval fields and
the timestamps are omitted. -/
structure Loan where
  id : String
  student_uid : String
  amount : Int
  outstanding_balance : Int
  status : String
  purpose : String
deriving DecidableEq, Repr

/-- The mutable store the payment routes touch: the `payments` and `loans`
collections. -/
structure SysState where
  payments : List Payment
  loans : List Loan
deriving DecidableEq, Repr

/-- Update the first element satisfying `pred` (Mongo's single-document
update semantics for a query on a unique key). -/
def updateFirst (pred : α → Bool) (f : α → α) : List α → List α
  | [] => []
  | x :: xs => if pred x then f x :: xs else x :: updateFirst pred f xs

/-- Saving a new payment document: the unique index on `transaction_id`
rejects a duplicate (Mongo E11000), otherwise the document is appended. -/
def insertPayment (ps : List Payment) (p : Payment) : Option (List Payment) :=
  if ps.any (fun q => q.transaction_id == p.transaction_id) then none
  else some (ps ++ [p])

/-- Handler `POST /api/payments/callback` (MTN `payments-mongo.ts`, lines 131-165).
Looks the payment up by the `X-Reference-Id` header; if absent or already
terminal, acknowledges with 200 and changes nothing. For a PENDING record:
on body status `SUCCESSFUL` it marks the record SUCCESSFUL, stores
`financialTransactionId` in `external_ref`, and decrements the loan's
`outstanding_balance` by the payment amount via `$inc` (no clamping);
otherwise it marks the record FAILED and leaves the loans untouched.
Returns the HTTP status code alongside the new state. -/
def handleCallback (st : SysState) (transaction_id : String) (status : String)
    (financialTransactionId : Option String) : SysState × Nat :=
  match st.payments.find? (fun p => p.transaction_id == transaction_id) with
  | none => (st, 200)
  | some payment =>
    if payment.status != "PENDING" then (st, 200)
    else if status == "SUCCESSFUL" then
      let payments' := updateFirst (fun p => p.transaction_id == transaction_id)
        (fun p => { p with status := "SUCCESSFUL", external_ref := financialTransactionId })
        st.payments
      let loans' := updateFirst (fun l => l.id == payment.loan_id)
        (fun l => { l with outstanding_balance := l.outstanding_balance - payment.amount })
        st.loans
      ({ payments := payments', loans := loans' }, 200)
    else
      let failed := updateFirst (fun p => p.transaction_id == transaction_id)
        (fun p => { p with status := "FAILED" }) st.payments
      ({ st with payments := failed }, 200)

/-- JavaScript truthiness test `!x` for an optional numeric body field:
absent and `0` are falsy. -/
def jsFalsyInt : Option Int → Bool
  | none => true
  | some n => n == 0

/-- JavaScript truthiness test `!x` for an optional string body field:
absent and the empty string are falsy. -/
def jsFalsyStr : Option String → Bool
  | none => true
  | some s => s == ""

/-- The JSON body of `POST /api/payments/initiate`. -/
structure InitiateReq where
  amount : Option Int
  phone : Option String
  provider : Option String
  loanId : Option String
deriving DecidableEq, Repr

/-- Model of `new Payment(...).save()` followed by the success response `code`: the
save fails (unique `transaction_id` index) inside the route's try/catch, so a
duplicate yields the catch-block 500 with the store unchanged. -/
def savePayment (st : SysState) (p : Payment) (code : Nat) : SysState × Nat :=
  match insertPayment st.payments p with
  | none => (st, 500)
  | some ps => ({ st with payments := ps }, code)

/-- Handler `POST /api/payments/initiate` (MTN `payments-mongo.ts`, lines 70-124).
Validation: 400 when `amount`, `phone` or `loanId` is falsy, or when
`provider` is not exactly `"mtn"`.  It then fetches an MTN token and posts a
request-to-pay; either call throwing lands in the catch block, which returns
500 without touching the store.  Only after the provider call returns does it
save a new PENDING payment (`transaction_id` is the fresh uuid `uuidv4()`,
passed here as a parameter, `newId` the fresh Mongo `_id`), responding 202. -/
def initiate (st : SysState) (req : InitiateReq) (userId : String)
    (transaction_id newId : String) (tokenOk payOk : Bool) : SysState × Nat :=
  if jsFalsyInt req.amount || jsFalsyStr req.phone || jsFalsyStr req.loanId then
    (st, 400)
  else if req.provider != some "mtn" then (st, 400)
  else if !tokenOk then (st, 500)
  else if !payOk then (st, 500)
  else
    savePayment st
      { id := newId, transaction_id := transaction_id,
        loan_id := req.loanId.getD "", user_id := userId,
        amount := req.amount.getD 0, status := "PENDING", external_ref := none }
      202

/-- The status values admitted by `PUT /api/payments/:id` and by the
`Payment` schema enum. -/
def validStatuses : List String := ["PENDING", "SUCCESSFUL", "FAILED"]

/-- Handler `PUT /api/payments/:id` (CRUD `payments-mongo.ts`, lines 98-124), behind
`authorize(["admin", "alumni_office"])`.  A truthy `status` outside the
allowed list yields 400; otherwise `findByIdAndUpdate` overwrites whichever
of the optional fields are truthy (JS `...(status && \x7b status \x7d)`), on
the document matched by `_id`; 404 when no document matches.  No loan is
read or written.  The `method` and `access_number` fields are not modelled
(they are not referenced by any claim). -/
def putPayment (st : SysState) (role : String) (paramId : String)
    (status external_ref : Option String) : SysState × Nat :=
  if !(["admin", "alumni_office"].contains role) then (st, 403)
  else if (match status with
           | some s => s != "" && !(validStatuses.contains s)
           | none => false) then (st, 400)
  else if st.payments.any (fun p => p.id == paramId) then
    let payments' := updateFirst (fun p => p.id == paramId)
      (fun p =>
        { p with
          status := match status with
            | some s => if s != "" then s else p.status
            | none => p.status
          external_ref := match external_ref with
            | some r => if r != "" then some r else p.external_ref
            | none => p.external_ref }) st.payments
    ({ st with payments := payments' }, 200)
  else (st, 404)

/-- Value `targetUid = user_uid || requester.uid` of `POST /api/payments`. -/
def postTarget (user_uid : Option String) (requesterUid : String) : String :=
  if jsFalsyStr user_uid then requesterUid else user_uid.getD ""

/-- Value `status || "PENDING"` of `POST /api/payments`. -/
def postStatus (status : Option String) : String :=
  if jsFalsyStr status then "PENDING" else status.getD ""

/-- Handler `POST /api/payments` (CRUD `payments-mongo.ts`, lines 44-95).  400 when
`transaction_id` or `amount` is falsy or a payment with that
`transaction_id` already exists; 403 when a non-privileged caller targets
another user; otherwise saves a new payment with status `status || "PENDING"`
— the schema enum rejects any other status on save (ValidationError, caught
as 500), and the unique index rejects a `transaction_id` race (also 500).
The `user_uid`/`payer_uid`/`method`/`access_number` fields are not modelled;
the target uid check uses `user_uid || requester.uid` from the body. -/
def postPayment (st : SysState) (role requesterUid : String)
    (transaction_id : Option String) (loan_id user_uid : Option String)
    (amount : Option Int) (status : Option String) (newId : String) :
    SysState × Nat :=
  if jsFalsyStr transaction_id || jsFalsyInt amount then (st, 400)
  else if st.payments.any (fun p => some p.transaction_id == transaction_id) then
    (st, 400)
  else if !(["admin", "alumni_office"].contains role)
      && postTarget user_uid requesterUid != requesterUid then
    (st, 403)
  else if !(validStatuses.contains (postStatus status)) then (st, 500)
  else
    savePayment st
      { id := newId, transaction_id := transaction_id.getD "",
        loan_id := loan_id.getD "", user_id := requesterUid,
        amount := amount.getD 0, status := postStatus status,
        external_ref := none }
      201

/-- Sum of the amounts of SUCCESSFUL payments attached to loan `lid`:
`Payment.find(\x7b loan_id, status: "SUCCESSFUL" \x7d)` followed by
`payments.reduce((sum, p) => sum + (p.amount || 0), 0)` in the loan read
handlers of `src/routes/auth.ts`. -/
def sumSuccessful : List Payment → String → Int
  | [], _ => 0
  | p :: ps, lid =>
    (if p.loan_id == lid && p.status == "SUCCESSFUL" then p.amount else 0)
      + sumSuccessful ps lid

/-- The fields of a loan entry returned by the loan read handlers that the
claims talk about (the user-profile enrichment fields are omitted). -/
structure LoanView where
  id : String
  amount_requested : Int
  outstanding_balance : Int
  total_paid : Int
  status : String
deriving DecidableEq, Repr

/-- Amount resolution of the `GET /api/loans` handler (`auth.ts`): use
`loan.amount` when positive, else the latest application's
`amountRequested` (ternary on truthiness, so absent and 0 give 0), and if
that still leaves 0, the latest disbursement's `original_amount || 0`. -/
def resolveAmount (loanAmount : Int) (appAmount disbAmount : Option Int) : Int :=
  let a := if loanAmount > 0 then loanAmount else appAmount.getD 0
  if a == 0 then disbAmount.getD 0 else a

/-- Handler `GET /api/loans/mine` (`auth.ts`, lines 317-359): for each loan of the
student, recompute `total_paid` from the SUCCESSFUL payments of that loan and
report `outstanding_balance := Math.max(0, loan.amount - totalPaid)` — the
stored `outstanding_balance` field is not returned.  The sort by `created_at`
only reorders entries and is not modelled. -/
def getLoansMine (st : SysState) (uid : String) : List LoanView :=
  (st.loans.filter (fun l => l.student_uid == uid)).map (fun l =>
    let totalPaid := sumSuccessful st.payments l.id
    { id := l.id, amount_requested := l.amount,
      outstanding_balance := max 0 (l.amount - totalPaid),
      total_paid := totalPaid, status := l.status })

/-- Handler `GET /api/loans` (`auth.ts`, lines 258-315): for every loan, resolve the
requested amount through `resolveAmount` (`appAmount`/`disbAmount` model the
per-student lookups into the `applications` and `disbursements` collections)
and report `outstanding_balance := Math.max(0, amount - totalPaid)`,
overriding the stored field in the spread `\x7b ...loan, ... \x7d`.  The sort
and the user-profile enrichment are not modelled. -/
def getLoansAll (st : SysState) (appAmount disbAmount : String → Option Int) :
    List LoanView :=
  st.loans.map (fun l =>
    let amount := resolveAmount l.amount (appAmount l.student_uid) (disbAmount l.student_uid)
    let totalPaid := sumSuccessful st.payments l.id
    { id := l.id, amount_requested := amount,
      outstanding_balance := max 0 (amount - totalPaid),
      total_paid := totalPaid, status := l.status })

/-- The ledger/balance agreement of spec §3, without clamping: every loan's
stored balance equals its principal minus the successful payments booked
against it. -/
def ledgerAgreement (st : SysState) : Prop :=
  ∀ l ∈ st.loans, l.outstanding_balance = l.amount - sumSuccessful st.payments l.id

/-- The ledger/balance agreement exactly as the spec states it, clamped at
zero. -/
def clampedAgreement (st : SysState) : Prop :=
  ∀ l ∈ st.loans,
    l.outstanding_balance = max 0 (l.amount - sumSuccessful st.payments l.id)

instance (st : SysState) : Decidable (ledgerAgreement st) := by
  unfold ledgerAgreement; infer_instance

instance (st : SysState) : Decidable (clampedAgreement st) := by
  unfold clampedAgreement; infer_instance

/-! ### Helper lemmas about `updateFirst`, `List.find?` and `sumSuccessful` -/

theorem updateFirst_cons_pos {pred : α → Bool} {f : α → α} {x : α} {xs : List α}
    (h : pred x = true) : updateFirst pred f (x :: xs) = f x :: xs := by
  simp [updateFirst, h]

theorem updateFirst_cons_neg {pred : α → Bool} {f : α → α} {x : α} {xs : List α}
    (h : pred x = false) :
    updateFirst pred f (x :: xs) = x :: updateFirst pred f xs := by
  simp [updateFirst, h]

/-- If `f` preserves `pred`, updating the first match leaves it the first
match, now transformed. -/
theorem find?_updateFirst_self {pred : α → Bool} {f : α → α}
    (hf : ∀ a, pred a = true → pred (f a) = true) :
    ∀ {ps : List α} {p : α}, ps.find? pred = some p →
      (updateFirst pred f ps).find? pred = some (f p)
  | [], p, h => by simp at h
  | x :: xs, p, h => by
    by_cases hx : pred x = true
    · rw [List.find?_cons_of_pos _ hx] at h
      cases h
      rw [updateFirst_cons_pos hx, List.find?_cons_of_pos _ (hf _ hx)]
    · have hx' : pred x = false := by simpa using hx
      rw [List.find?_cons_of_neg _ (by simp [hx'])] at h
      rw [updateFirst_cons_neg hx', List.find?_cons_of_neg _ (by simp [hx'])]
      exact find?_updateFirst_self hf h

/-- An update that does not change the projection `g` leaves `map g`
untouched. -/
theorem map_updateFirst {pred : α → Bool} {f : α → α} (g : α → β)
    (hf : ∀ a, pred a = true → g (f a) = g a) :
    ∀ ps : List α, (updateFirst pred f ps).map g = ps.map g
  | [] => rfl
  | x :: xs => by
    by_cases hx : pred x = true
    · rw [updateFirst_cons_pos hx]
      simp [hf _ hx]
    · have hx' : pred x = false := by simpa using hx
      rw [updateFirst_cons_neg hx']
      simp [map_updateFirst g hf xs]

/-- Pointwise relation between a list and its `updateFirst` image: the first
match is related by `R _ (f _)`, everything else reflexively. -/
theorem forall₂_updateFirst {pred : α → Bool} {f : α → α} {R : α → α → Prop}
    (hrefl : ∀ a, R a a) :
    ∀ {ps : List α} {p : α}, ps.find? pred = some p → R p (f p) →
      List.Forall₂ R ps (updateFirst pred f ps)
  | [], p, h, _ => by simp at h
  | x :: xs, p, h, hp => by
    by_cases hx : pred x = true
    · rw [List.find?_cons_of_pos _ hx] at h
      cases h
      rw [updateFirst_cons_pos hx]
      exact List.Forall₂.cons hp (List.forall₂_same.mpr fun a _ => hrefl a)
    · have hx' : pred x = false := by simpa using hx
      rw [List.find?_cons_of_neg _ (by simp [hx'])] at h
      rw [updateFirst_cons_neg hx']
      exact List.Forall₂.cons (hrefl x) (forall₂_updateFirst hrefl h hp)

/-- Marking the first PENDING payment with token `tx` as FAILED changes no
loan's successful-payment sum. -/
theorem sumSuccessful_updateFirst_failed {tx : String} :
    ∀ {ps : List Payment} {p : Payment},
      ps.find? (fun q => q.transaction_id == tx) = some p →
      p.status = "PENDING" →
      ∀ lid, sumSuccessful
          (updateFirst (fun q => q.transaction_id == tx)
            (fun q => { q with status := "FAILED" }) ps) lid
        = sumSuccessful ps lid
  | [], p, h, _ => by simp at h
  | x :: xs, p, h, hpend => by
    intro lid
    by_cases hx : (x.transaction_id == tx) = true
    · simp only [List.find?_cons, hx, Option.some.injEq] at h
      subst h
      simp [updateFirst, hx, sumSuccessful, hpend]
    · have hx' : (x.transaction_id == tx) = false := by simpa using hx
      simp only [List.find?_cons, hx'] at h
      simp [updateFirst, hx', sumSuccessful,
        sumSuccessful_updateFirst_failed h hpend lid]

/-- Marking the first PENDING payment with token `tx` as SUCCESSFUL raises
the successful-payment sum of its loan by its amount, and no other loan's
sum. -/
theorem sumSuccessful_updateFirst_success {tx : String} {ref : Option String} :
    ∀ {ps : List Payment} {p : Payment},
      ps.find? (fun q => q.transaction_id == tx) = some p →
      p.status = "PENDING" →
      ∀ lid, sumSuccessful
          (updateFirst (fun q => q.transaction_id == tx)
            (fun q => { q with status := "SUCCESSFUL", external_ref := ref }) ps) lid
        = sumSuccessful ps lid + (if p.loan_id = lid then p.amount else 0)
  | [], p, h, _ => by simp at h
  | x :: xs, p, h, hpend => by
    intro lid
    by_cases hx : (x.transaction_id == tx) = true
    · simp only [List.find?_cons, hx, Option.some.injEq] at h
      subst h
      by_cases hl : x.loan_id = lid
      · simp [updateFirst, hx, sumSuccessful, hpend, hl]
        ring
      · simp [updateFirst, hx, sumSuccessful, hpend, hl]
    · have hx' : (x.transaction_id == tx) = false := by simpa using hx
      simp only [List.find?_cons, hx'] at h
      simp [updateFirst, hx', sumSuccessful,
        sumSuccessful_updateFirst_success h hpend lid]
      ring

/-- With pairwise-distinct loan ids, the image of a loan `l` under the
balance decrement on loan `lid` is `l` itself when `l.id ≠ lid`, and the
decremented `l` when `l.id = lid`. -/
theorem updateFirst_loan_mem {g : Loan → Loan} {lid : String}
    (hg : ∀ l : Loan, (g l).id = l.id) :
    ∀ {ls : List Loan}, (ls.map Loan.id).Nodup → ∀ {l : Loan}, l ∈ ls →
      (if l.id = lid then g l else l) ∈ updateFirst (fun x => x.id == lid) g ls
  | [], _, l, hl => by simp at hl
  | x :: xs, hnd, l, hl => by
    rw [List.map_cons, List.nodup_cons] at hnd
    obtain ⟨hxid, hnd'⟩ := hnd
    rcases List.mem_cons.mp hl with rfl | hl'
    · by_cases hx : (l.id == lid) = true
      · have hx' := hx
        simp only [beq_iff_eq] at hx'
        simp [updateFirst, hx, hx']
      · have hx' : (l.id == lid) = false := by simpa using hx
        have hx'' : l.id ≠ lid := by simpa using hx'
        simp [updateFirst, hx', hx'']
    · by_cases hx : (x.id == lid) = true
      · have hx' := hx
        simp only [beq_iff_eq] at hx'
        have hne : l.id ≠ lid := by
          intro hli
          exact hxid (List.mem_map.mpr ⟨l, hl', by rw [hli, hx']⟩)
        simp [updateFirst, hx, hne, List.mem_cons.mpr (Or.inr hl')]
      · have hx' : (x.id == lid) = false := by simpa using hx
        simp only [updateFirst, hx', Bool.false_eq_true, if_false]
        exact List.mem_cons.mpr (Or.inr (updateFirst_loan_mem hg hnd' hl'))

/-- Decrementing the (unique) loan `lid` by `amt` preserves the agreement
between balances and a sum function that grew by `amt` on `lid`. -/
theorem agreement_after_dec {lid : String} {amt : Int} {sOld sNew : String → Int}
    (hsum : ∀ k, sNew k = sOld k + (if lid = k then amt else 0)) :
    ∀ {ls : List Loan}, (ls.map Loan.id).Nodup →
      (∀ l ∈ ls, l.outstanding_balance = l.amount - sOld l.id) →
      ∀ l ∈ updateFirst (fun x => x.id == lid)
          (fun x => { x with outstanding_balance := x.outstanding_balance - amt }) ls,
        l.outstanding_balance = l.amount - sNew l.id
  | [], _, _ => by simp [updateFirst]
  | x :: xs, hnd, hagree => by
    rw [List.map_cons, List.nodup_cons] at hnd
    obtain ⟨hxid, hnd'⟩ := hnd
    by_cases hx : (x.id == lid) = true
    · have hid : x.id = lid := by simpa using hx
      simp only [updateFirst, hx, if_true]
      intro l hl
      rcases List.mem_cons.mp hl with rfl | hl'
      · have := hagree x (List.mem_cons_self x xs)
        simp only [hsum, hid]
        simp [this, hid]
        ring
      · have hne : lid ≠ l.id := by
          intro hli
          exact hxid (List.mem_map.mpr ⟨l, hl', by rw [hid, hli]⟩)
        rw [hagree l (List.mem_cons.mpr (Or.inr hl')), hsum, if_neg hne]
        ring
    · have hx' : (x.id == lid) = false := by simpa using hx
      have hid : x.id ≠ lid := by simpa using hx'
      simp only [updateFirst, hx', Bool.false_eq_true, if_false]
      intro l hl
      rcases List.mem_cons.mp hl with rfl | hl'
      · rw [hagree l (List.mem_cons_self l xs), hsum,
          if_neg (fun hli => hid hli.symm)]
        ring
      · exact agreement_after_dec hsum hnd'
          (fun l' hl'' => hagree l' (List.mem_cons.mpr (Or.inr hl''))) l hl'

/-! ### Concrete scenario states -/

/-- A loan of principal 50 with stored balance 50. -/
def loanA : Loan :=
  { id := "L1", student_uid := "alice", amount := 50,
    outstanding_balance := 50, status := "active", purpose := "tuition" }

/-- A PENDING payment of 100 (more than `loanA`'s balance) toward `loanA`. -/
def payA : Payment :=
  { id := "P1", transaction_id := "tx1", loan_id := "L1", user_id := "alice",
    amount := 100, status := "PENDING", external_ref := none }

def stA : SysState := { payments := [payA], loans := [loanA] }

/-- A loan of principal 500 with two pending payments of 300 each. -/
def loanB : Loan :=
  { id := "L2", student_uid := "bob", amount := 500,
    outstanding_balance := 500, status := "active", purpose := "fees" }

def payB1 : Payment :=
  { id := "P21", transaction_id := "t1", loan_id := "L2", user_id := "bob",
    amount := 300, status := "PENDING", external_ref := none }

def payB2 : Payment :=
  { id := "P22", transaction_id := "t2", loan_id := "L2", user_id := "bob",
    amount := 300, status := "PENDING", external_ref := none }

def stB : SysState := { payments := [payB1, payB2], loans := [loanB] }

/-- A loan of principal 200, balance 200, with one PENDING payment of 80. -/
def loanC : Loan :=
  { id := "L3", student_uid := "carol", amount := 200,
    outstanding_balance := 200, status := "active", purpose := "books" }

def payC : Payment :=
  { id := "P3", transaction_id := "tx3", loan_id := "L3", user_id := "carol",
    amount := 80, status := "PENDING", external_ref := none }

def stC : SysState := { payments := [payC], loans := [loanC] }

/-- A payment already in the terminal SUCCESSFUL state. -/
def payD : Payment :=
  { id := "P4", transaction_id := "t4", loan_id := "L4", user_id := "dan",
    amount := 60, status := "SUCCESSFUL", external_ref := some "ftx4" }

def loanD : Loan :=
  { id := "L4", student_uid := "dan", amount := 90,
    outstanding_balance := 30, status := "active", purpose := "rent" }

def stD : SysState := { payments := [payD], loans := [loanD] }

/-- A loan owned by `alice`, with no payments yet. -/
def loanE : Loan :=
  { id := "L9", student_uid := "alice", amount := 400,
    outstanding_balance := 400, status := "active", purpose := "tuition" }

def stE : SysState := { payments := [], loans := [loanE] }

/-- A state with one loan and an empty payments collection. -/
def st0 : SysState := { payments := [], loans := [loanA] }

/-- A loan with `amount = 0` (migrated record) but a SUCCESSFUL payment of
100 booked against it; the stored balance field holds the stale value 77. -/
def loanF : Loan :=
  { id := "LF", student_uid := "s1", amount := 0,
    outstanding_balance := 77, status := "active", purpose := "hostel" }

def payF : Payment :=
  { id := "PF", transaction_id := "tF", loan_id := "LF", user_id := "s1",
    amount := 100, status := "SUCCESSFUL", external_ref := some "r" }

def stF : SysState := { payments := [payF], loans := [loanF] }

/-! ### Claim theorems -/

/-- C1: delivering the SUCCESSFUL (or any) callback for the same transaction
id a second time with the identical status is a complete no-op: the state
after two invocations of `handleCallback` equals the state after one, so the
loan balance is decremented exactly once however often the callback is
retried. -/
theorem callback_idempotent (st : SysState) (tx s : String) (ref : Option String) :
    handleCallback (handleCallback st tx s ref).1 tx s ref
      = ((handleCallback st tx s ref).1, 200) := by
  cases hfind : st.payments.find? (fun p => p.transaction_id == tx) with
  | none => simp [handleCallback, hfind]
  | some p =>
    by_cases hp : (p.status != "PENDING") = true
    · simp [handleCallback, hfind, hp]
    · have hp' : p.status = "PENDING" := by simpa using hp
      have hp'' : (p.status != "PENDING") = false := by simp [hp']
      by_cases hs : (s == "SUCCESSFUL") = true
      · have hfind' : (updateFirst (fun q => q.transaction_id == tx)
              (fun q => { q with status := "SUCCESSFUL", external_ref := ref })
              st.payments).find? (fun q => q.transaction_id == tx)
            = some { p with status := "SUCCESSFUL", external_ref := ref } :=
          find?_updateFirst_self (fun a ha => by exact ha) hfind
        simp [handleCallback, hfind, hp'', hs, hfind']
      · have hs' : (s == "SUCCESSFUL") = false := by simpa using hs
        have hfind' : (updateFirst (fun q => q.transaction_id == tx)
              (fun q => { q with status := "FAILED" })
              st.payments).find? (fun q => q.transaction_id == tx)
            = some { p with status := "FAILED" } :=
          find?_updateFirst_self (fun a ha => by exact ha) hfind
        simp [handleCallback, hfind, hp'', hs', hfind']

/-- C7: when the callback finds a PENDING record and the reported status is
not `SUCCESSFUL`, the record is set to FAILED (keeping every other field)
and the loans collection — balances and all other fields — is left exactly
as it was; the handler acknowledges with 200. -/
theorem callback_failed_frame (st : SysState) (tx s : String) (ref : Option String)
    (p : Payment)
    (hfind : st.payments.find? (fun q => q.transaction_id == tx) = some p)
    (hpend : p.status = "PENDING") (hs : s ≠ "SUCCESSFUL") :
    (handleCallback st tx s ref).1.loans = st.loans ∧
    (handleCallback st tx s ref).1.payments.find? (fun q => q.transaction_id == tx)
      = some { p with status := "FAILED" } ∧
    (handleCallback st tx s ref).2 = 200 := by
  have hp'' : (p.status != "PENDING") = false := by simp [hpend]
  have hs' : (s == "SUCCESSFUL") = false := by simpa using hs
  have hfind' : (updateFirst (fun q => q.transaction_id == tx)
        (fun q => { q with status := "FAILED" })
        st.payments).find? (fun q => q.transaction_id == tx)
      = some { p with status := "FAILED" } :=
    find?_updateFirst_self (fun a ha => by exact ha) hfind
  refine ⟨?_, ?_, ?_⟩ <;> simp [handleCallback, hfind, hp'', hs', hfind']

/-- Witness for C7 at a concrete input: a FAILED callback for the pending
payment of `stA` leaves the loan untouched and marks the record FAILED. -/
theorem callback_failed_frame_witness :
    (handleCallback stA "tx1" "FAILED" none).1.loans = stA.loans ∧
    (handleCallback stA "tx1" "FAILED" none).1.payments.find?
        (fun q => q.transaction_id == "tx1")
      = some { payA with status := "FAILED" } ∧
    (handleCallback stA "tx1" "FAILED" none).2 = 200 :=
  callback_failed_frame stA "tx1" "FAILED" none payA (by decide) (by decide)
    (by decide)

/-- C8: a callback whose correlation id matches no payment record, and a
callback whose matched record is no longer PENDING, are acknowledged with
HTTP 200 and leave the entire store (payments and loans) unchanged. -/
theorem callback_ack_guard (st : SysState) (tx s : String) (ref : Option String) :
    (st.payments.find? (fun q => q.transaction_id == tx) = none →
      handleCallback st tx s ref = (st, 200)) ∧
    ∀ p, st.payments.find? (fun q => q.transaction_id == tx) = some p →
      p.status ≠ "PENDING" → handleCallback st tx s ref = (st, 200) := by
  constructor
  · intro h
    simp [handleCallback, h]
  · intro p h hp
    have hp' : (p.status != "PENDING") = true := by simpa using hp
    simp [handleCallback, h, hp']

/-- Witness for C8: the unknown token `"tx404"` on the empty store, and a
replayed callback against the already-SUCCESSFUL record of `stD`, are both
pure acknowledgements. -/
theorem callback_ack_guard_witness :
    handleCallback { payments := [], loans := [] } "tx404" "SUCCESSFUL" none
      = ({ payments := [], loans := [] }, 200) ∧
    handleCallback stD "t4" "SUCCESSFUL" none = (stD, 200) :=
  ⟨(callback_ack_guard { payments := [], loans := [] } "tx404" "SUCCESSFUL" none).1
      (by decide),
   (callback_ack_guard stD "t4" "SUCCESSFUL" none).2 payD (by decide) (by decide)⟩

/-- On a PENDING record and a SUCCESSFUL status, `handleCallback` produces
the two `updateFirst` writes and a 200 (shared unfolding helper). -/
theorem callback_success_result (st : SysState) (tx : String) (ref : Option String)
    (p : Payment)
    (hfind : st.payments.find? (fun q => q.transaction_id == tx) = some p)
    (hpend : p.status = "PENDING") :
    handleCallback st tx "SUCCESSFUL" ref =
      ({ payments := updateFirst (fun q => q.transaction_id == tx)
            (fun q => { q with status := "SUCCESSFUL", external_ref := ref })
            st.payments,
         loans := updateFirst (fun l => l.id == p.loan_id)
            (fun l => { l with outstanding_balance := l.outstanding_balance - p.amount })
            st.loans }, 200) := by
  have hp'' : (p.status != "PENDING") = false := by simp [hpend]
  simp [handleCallback, hfind, hp'']

/-- After a SUCCESSFUL callback on a PENDING record, every loan reappears
with its balance decremented by the payment's amount when its id is the
payment's loan id, and unchanged otherwise (shared helper). -/
theorem callback_success_loan_mem (st : SysState) (tx : String) (ref : Option String)
    (p : Payment)
    (hfind : st.payments.find? (fun q => q.transaction_id == tx) = some p)
    (hpend : p.status = "PENDING")
    (hnodup : (st.loans.map Loan.id).Nodup) :
    ∀ l ∈ st.loans,
      ({ l with outstanding_balance := l.outstanding_balance -
          (if l.id = p.loan_id then p.amount else 0) } : Loan)
        ∈ (handleCallback st tx "SUCCESSFUL" ref).1.loans := by
  intro l hl
  rw [callback_success_result st tx ref p hfind hpend]
  have hmem : (if l.id = p.loan_id then
        ({ l with outstanding_balance := l.outstanding_balance - p.amount } : Loan)
      else l)
      ∈ updateFirst (fun x => x.id == p.loan_id)
        (fun x => { x with outstanding_balance := x.outstanding_balance - p.amount })
        st.loans :=
    updateFirst_loan_mem (fun x => by exact rfl) hnodup hl
  by_cases hid : l.id = p.loan_id
  · simpa [hid] using hmem
  · simpa [hid] using hmem

/-- C2 counterexample: the SUCCESSFUL branch does not clamp at zero.  In
`stA` the loan's stored balance is 50 and the pending payment's amount is
100; after the SUCCESSFUL callback the stored balance is -50, while the
claimed clamped value is `max 0 (50 - 100) = 0`. -/
theorem callback_no_clamp_counterexample :
    ((handleCallback stA "tx1" "SUCCESSFUL" (some "ftx")).1.loans.map
      Loan.outstanding_balance) = [-50] ∧
    max 0 ((50 : Int) - 100) = 0 ∧ ((-50 : Int) ≠ max 0 ((50 : Int) - 100)) := by
  decide

/-- C2 (amended): when the callback finds a PENDING record and the reported
status is SUCCESSFUL, it sets the record's status to SUCCESSFUL, stores the
provider reference in `external_ref`, and decrements the associated loan's
stored balance by exactly the record's amount — with no clamping — leaving
every other loan untouched, and acknowledges with 200. -/
theorem callback_success_applies (st : SysState) (tx : String) (ref : Option String)
    (p : Payment)
    (hfind : st.payments.find? (fun q => q.transaction_id == tx) = some p)
    (hpend : p.status = "PENDING")
    (hnodup : (st.loans.map Loan.id).Nodup) :
    ((handleCallback st tx "SUCCESSFUL" ref).1.payments.find?
        (fun q => q.transaction_id == tx)
      = some { p with status := "SUCCESSFUL", external_ref := ref }) ∧
    (∀ l ∈ st.loans,
      ({ l with outstanding_balance := l.outstanding_balance -
          (if l.id = p.loan_id then p.amount else 0) } : Loan)
        ∈ (handleCallback st tx "SUCCESSFUL" ref).1.loans) ∧
    (handleCallback st tx "SUCCESSFUL" ref).2 = 200 := by
  refine ⟨?_, callback_success_loan_mem st tx ref p hfind hpend hnodup, ?_⟩
  · rw [callback_success_result st tx ref p hfind hpend]
    exact find?_updateFirst_self (fun a ha => by exact ha) hfind
  · rw [callback_success_result st tx ref p hfind hpend]

/-- Witness for the amended C2 at `stA`: the record is marked SUCCESSFUL
with the provider reference stored, and the loan's balance is decremented by
the full amount. -/
theorem callback_success_applies_witness :
    ((handleCallback stA "tx1" "SUCCESSFUL" (some "ftx")).1.payments.find?
        (fun q => q.transaction_id == "tx1")
      = some { payA with status := "SUCCESSFUL", external_ref := some "ftx" }) ∧
    ({ loanA with outstanding_balance := loanA.outstanding_balance -
        (if loanA.id = payA.loan_id then payA.amount else 0) } : Loan)
      ∈ (handleCallback stA "tx1" "SUCCESSFUL" (some "ftx")).1.loans := by
  have h := callback_success_applies stA "tx1" (some "ftx") payA (by decide)
    (by decide) (by decide)
  exact ⟨h.1, h.2.1 loanA (by decide)⟩

/-- C3 counterexample: two successful callbacks of 300 each against a loan
of principal 500 drive the stored balance to -100 — the stored balance does
not floor at zero. -/
theorem balance_negative_counterexample :
    ((handleCallback (handleCallback stB "t1" "SUCCESSFUL" none).1
        "t2" "SUCCESSFUL" none).1.loans.map Loan.outstanding_balance) = [-100] ∧
    ((-100 : Int) < 0) := by
  decide

/-- C3 (amended): each successful-callback decrement subtracts the full
payment amount from the stored balance with no floor: the loan whose id the
payment references ends with balance `old - amount`, whatever its sign. -/
theorem stored_balance_unclamped (st : SysState) (tx : String) (ref : Option String)
    (p : Payment) (l : Loan)
    (hfind : st.payments.find? (fun q => q.transaction_id == tx) = some p)
    (hpend : p.status = "PENDING")
    (hnodup : (st.loans.map Loan.id).Nodup)
    (hl : l ∈ st.loans) (hid : l.id = p.loan_id) :
    ({ l with outstanding_balance := l.outstanding_balance - p.amount } : Loan)
      ∈ (handleCallback st tx "SUCCESSFUL" ref).1.loans := by
  have h := callback_success_loan_mem st tx ref p hfind hpend hnodup l hl
  simpa [hid] using h

/-- Witness for the amended C3 at `stA`: the loan ends with the negative
stored balance -50. -/
theorem stored_balance_unclamped_witness :
    ({ loanA with outstanding_balance := loanA.outstanding_balance - payA.amount } : Loan)
      ∈ (handleCallback stA "tx1" "SUCCESSFUL" none).1.loans :=
  stored_balance_unclamped stA "tx1" none payA loanA (by decide) (by decide)
    (by decide) (by decide) (by decide)

/-- C4 counterexample: the clamped ledger/balance agreement is not an
invariant.  (i) It holds in `stA` but is broken by an overpaying SUCCESSFUL
callback (stored balance -50, clamped aggregate 0).  (ii) It holds in `stC`
but is broken by the admin `PUT /:id` endpoint flipping the PENDING payment
to SUCCESSFUL without touching the loan (stored balance 200, clamped
aggregate 120). -/
theorem ledger_agreement_counterexample :
    (clampedAgreement stA ∧
      ¬ clampedAgreement (handleCallback stA "tx1" "SUCCESSFUL" none).1) ∧
    (clampedAgreement stC ∧
      ¬ clampedAgreement (putPayment stC "admin" "P3" (some "SUCCESSFUL") none).1) := by
  decide

/-- C4 (amended): callback processing alone does preserve the *unclamped*
agreement: if every loan's stored balance equals its principal minus the sum
of SUCCESSFUL payment amounts booked against it (and loan ids are pairwise
distinct), the same holds after any `handleCallback` invocation.  The
clamping in the claim is refuted by the counterexample, as is preservation
by the admin payment-update endpoints. -/
theorem callback_preserves_ledger_agreement (st : SysState) (tx s : String)
    (ref : Option String) (hnodup : (st.loans.map Loan.id).Nodup)
    (hagree : ledgerAgreement st) :
    ledgerAgreement (handleCallback st tx s ref).1 := by
  cases hfind : st.payments.find? (fun p => p.transaction_id == tx) with
  | none =>
    simpa [handleCallback, hfind] using hagree
  | some p =>
    by_cases hp : (p.status != "PENDING") = true
    · simpa [handleCallback, hfind, hp] using hagree
    · have hp' : p.status = "PENDING" := by simpa using hp
      have hp'' : (p.status != "PENDING") = false := by simp [hp']
      by_cases hs : (s == "SUCCESSFUL") = true
      · have hs' : s = "SUCCESSFUL" := by simpa using hs
        subst hs'
        have hres := callback_success_result st tx ref p hfind hp'
        rw [hres]
        intro l hl
        exact agreement_after_dec
          (fun k => sumSuccessful_updateFirst_success hfind hp' k)
          hnodup hagree l hl
      · have hs' : (s == "SUCCESSFUL") = false := by simpa using hs
        intro l hl
        have hl' : l ∈ st.loans := by
          simpa [handleCallback, hfind, hp'', hs'] using hl
        have hsum := sumSuccessful_updateFirst_failed hfind hp' l.id
        simp only [handleCallback, hfind, hp'', hs']
        simpa [hsum] using hagree l hl'

/-- Witness for the amended C4: `stA` satisfies the unclamped agreement and
still does after the overpaying SUCCESSFUL callback (balance -50 = 50 - 100). -/
theorem callback_preserves_ledger_agreement_witness :
    ledgerAgreement (handleCallback stA "tx1" "SUCCESSFUL" none).1 :=
  callback_preserves_ledger_agreement stA "tx1" "SUCCESSFUL" none (by decide)
    (by decide)

/-- C5 counterexample: with a fully valid request, if the provider call
fails synchronously (`payOk = false`), `initiate` returns 500 and the store
is unchanged — in particular no PENDING `PaymentRecord` was persisted before
the provider was contacted (the payments collection of `st0` is empty). -/
theorem initiate_provider_failure_counterexample :
    initiate st0
        { amount := some 100, phone := some "0771", provider := some "mtn",
          loanId := some "L1" } "alice" "tx9" "P9" true false
      = (st0, 500) ∧
    st0.payments = [] := by
  decide

/-- C5 (amended): `initiate` persists the PENDING record only after the
provider interaction succeeds; when the token fetch or the request-to-pay
fails synchronously on a validated request, no `PaymentRecord` is created
(the state is returned unchanged) and the caller gets a 500. -/
theorem initiate_no_record_on_provider_failure (st : SysState) (req : InitiateReq)
    (u tx nid : String) (tokenOk payOk : Bool)
    (hA : jsFalsyInt req.amount = false) (hP : jsFalsyStr req.phone = false)
    (hL : jsFalsyStr req.loanId = false) (hprov : req.provider = some "mtn")
    (hfail : tokenOk = false ∨ payOk = false) :
    initiate st req u tx nid tokenOk payOk = (st, 500) := by
  rcases hfail with hf | hf <;> subst hf
  · simp [initiate, hA, hP, hL, hprov]
  · cases tokenOk <;> simp [initiate, hA, hP, hL, hprov]

/-- Witness for the amended C5: the concrete valid request against `st0`
with a failing token fetch returns 500 with the state unchanged. -/
theorem initiate_no_record_on_provider_failure_witness :
    initiate st0
        { amount := some 100, phone := some "0771", provider := some "mtn",
          loanId := some "L1" } "alice" "txW" "PW" false true
      = (st0, 500) :=
  initiate_no_record_on_provider_failure st0
    { amount := some 100, phone := some "0771", provider := some "mtn",
      loanId := some "L1" } "alice" "txW" "PW" false true
    (by decide) (by decide) (by decide) (by decide) (Or.inl rfl)

/-- On a PENDING record and a non-SUCCESSFUL status, `handleCallback` only
rewrites the record to FAILED (shared unfolding helper). -/
theorem callback_failed_result (st : SysState) (tx s : String) (ref : Option String)
    (p : Payment)
    (hfind : st.payments.find? (fun q => q.transaction_id == tx) = some p)
    (hpend : p.status = "PENDING") (hs : (s == "SUCCESSFUL") = false) :
    handleCallback st tx s ref =
      ({ payments := updateFirst (fun q => q.transaction_id == tx)
          (fun q => { q with status := "FAILED" }) st.payments,
         loans := st.loans }, 200) := by
  have hp'' : (p.status != "PENDING") = false := by simp [hpend]
  simp [handleCallback, hfind, hp'', hs]

/-- Appending a payment whose `transaction_id` occurs nowhere in the list
keeps the transaction ids pairwise distinct (the unique-index argument). -/
theorem nodup_append_fresh {ps : List Payment} {p : Payment}
    (hnew : ¬ (ps.any (fun q => q.transaction_id == p.transaction_id) = true))
    (hnd : (ps.map Payment.transaction_id).Nodup) :
    ((ps ++ [p]).map Payment.transaction_id).Nodup := by
  have hnotin : p.transaction_id ∉ ps.map Payment.transaction_id := by
    intro hmem
    obtain ⟨q, hq, hqe⟩ := List.mem_map.mp hmem
    exact hnew (List.any_eq_true.mpr ⟨q, hq, by simp [hqe]⟩)
  rw [List.map_append]
  refine List.Nodup.append hnd (by simp) ?_
  intro a ha hb
  simp only [List.map_cons, List.map_nil, List.mem_singleton] at hb
  subst hb
  exact hnotin ha

/-- Saving a new payment document preserves pairwise-distinct transaction
ids: the duplicate is rejected (500, store unchanged) and a fresh id is
appended. -/
theorem savePayment_nodup (st : SysState) (P : Payment) (code : Nat)
    (hnd : (st.payments.map Payment.transaction_id).Nodup) :
    ((savePayment st P code).1.payments.map Payment.transaction_id).Nodup := by
  unfold savePayment insertPayment
  split_ifs with hany
  · exact hnd
  · exact nodup_append_fresh hany hnd

/-- C6 counterexample: the admin `PUT /:id` endpoint reverts a terminal
record. In `stD` the payment is SUCCESSFUL; after
`putPayment stD "admin" "P4" (some "PENDING") none` its status is PENDING
again, with HTTP 200 — a transition out of a terminal state. -/
theorem terminal_status_reverted_counterexample :
    stD.payments.map Payment.status = ["SUCCESSFUL"] ∧
    ((putPayment stD "admin" "P4" (some "PENDING") none).1.payments.map
      Payment.status) = ["PENDING"] ∧
    (putPayment stD "admin" "P4" (some "PENDING") none).2 = 200 := by
  decide

/-- C6 (amended): restricted to callback processing the claimed state
machine does hold, and all operations preserve one-record-per-token:
(1) `handleCallback` relates old and new ledgers pointwise — each record is
unchanged or moves from PENDING to SUCCESSFUL/FAILED;
(2) a record that is no longer PENDING makes `handleCallback` a pure 200
acknowledgement;
(3) `handleCallback` never changes the multiset of transaction ids;
(4) `putPayment` never changes the multiset of transaction ids and never
touches a loan (but, per the counterexample, may set arbitrary statuses);
(5) `initiate` and (6) `postPayment` preserve pairwise-distinct transaction
ids: creation is guarded by the unique index / duplicate check. -/
theorem payment_transitions (st : SysState) (tx s : String) (ref : Option String) :
    (List.Forall₂ (fun q q' : Payment =>
        q'.transaction_id = q.transaction_id ∧
        (q' = q ∨ (q.status = "PENDING" ∧
          (q'.status = "SUCCESSFUL" ∨ q'.status = "FAILED"))))
      st.payments (handleCallback st tx s ref).1.payments) ∧
    (∀ p, st.payments.find? (fun q => q.transaction_id == tx) = some p →
      p.status ≠ "PENDING" → handleCallback st tx s ref = (st, 200)) ∧
    ((handleCallback st tx s ref).1.payments.map Payment.transaction_id
      = st.payments.map Payment.transaction_id) ∧
    (∀ role pid s2 r2,
      (putPayment st role pid s2 r2).1.payments.map Payment.transaction_id
          = st.payments.map Payment.transaction_id ∧
        (putPayment st role pid s2 r2).1.loans = st.loans) ∧
    (∀ req u tx2 nid tOk pOk, (st.payments.map Payment.transaction_id).Nodup →
      ((initiate st req u tx2 nid tOk pOk).1.payments.map
        Payment.transaction_id).Nodup) ∧
    (∀ role ruid tx2 lid uuid amt s2 nid,
      (st.payments.map Payment.transaction_id).Nodup →
      ((postPayment st role ruid tx2 lid uuid amt s2 nid).1.payments.map
        Payment.transaction_id).Nodup) := by
  refine ⟨?_, ?_, ?_, ?_, ?_, ?_⟩
  · -- (1) pointwise transition relation for handleCallback
    cases hfind : st.payments.find? (fun p => p.transaction_id == tx) with
    | none =>
      simp only [handleCallback, hfind]
      exact List.forall₂_same.mpr fun a _ => ⟨rfl, Or.inl rfl⟩
    | some p =>
      by_cases hp : (p.status != "PENDING") = true
      · simp only [handleCallback, hfind, hp, if_true]
        exact List.forall₂_same.mpr fun a _ => ⟨rfl, Or.inl rfl⟩
      · have hp' : p.status = "PENDING" := by simpa using hp
        by_cases hs : (s == "SUCCESSFUL") = true
        · have hs' : s = "SUCCESSFUL" := by simpa using hs
          subst hs'
          rw [callback_success_result st tx ref p hfind hp']
          refine forall₂_updateFirst ?_ hfind ?_
          · exact fun a => ⟨rfl, Or.inl rfl⟩
          · exact ⟨rfl, Or.inr ⟨hp', Or.inl rfl⟩⟩
        · have hs' : (s == "SUCCESSFUL") = false := by simpa using hs
          rw [callback_failed_result st tx s ref p hfind hp' hs']
          refine forall₂_updateFirst ?_ hfind ?_
          · exact fun a => ⟨rfl, Or.inl rfl⟩
          · exact ⟨rfl, Or.inr ⟨hp', Or.inr rfl⟩⟩
  · -- (2) terminal records make the callback a no-op acknowledgement
    intro p h hp
    have hp' : (p.status != "PENDING") = true := by simpa using hp
    simp [handleCallback, h, hp']
  · -- (3) handleCallback preserves the transaction ids
    cases hfind : st.payments.find? (fun p => p.transaction_id == tx) with
    | none => simp [handleCallback, hfind]
    | some p =>
      by_cases hp : (p.status != "PENDING") = true
      · simp [handleCallback, hfind, hp]
      · have hp' : p.status = "PENDING" := by simpa using hp
        by_cases hs : (s == "SUCCESSFUL") = true
        · have hs' : s = "SUCCESSFUL" := by simpa using hs
          subst hs'
          rw [callback_success_result st tx ref p hfind hp']
          exact map_updateFirst Payment.transaction_id
            (fun a _ => by exact rfl) st.payments
        · have hs' : (s == "SUCCESSFUL") = false := by simpa using hs
          rw [callback_failed_result st tx s ref p hfind hp' hs']
          exact map_updateFirst Payment.transaction_id
            (fun a _ => by exact rfl) st.payments
  · -- (4) putPayment: ids preserved, loans untouched
    intro role pid s2 r2
    unfold putPayment
    split_ifs with h1 h2 h3
    · exact ⟨rfl, rfl⟩
    · exact ⟨rfl, rfl⟩
    · exact ⟨map_updateFirst Payment.transaction_id
        (fun a _ => by exact rfl) st.payments, rfl⟩
    · exact ⟨rfl, rfl⟩
  · -- (5) initiate preserves distinct transaction ids
    intro req u tx2 nid tOk pOk hnd
    unfold initiate
    split_ifs with b1 b2 b3 b4
    · exact hnd
    · exact hnd
    · exact hnd
    · exact hnd
    · exact savePayment_nodup st _ 202 hnd
  · -- (6) postPayment preserves distinct transaction ids
    intro role ruid tx2 lid uuid amt s2 nid hnd
    unfold postPayment
    split_ifs with c1 c2 c3 c4
    · exact hnd
    · exact hnd
    · exact hnd
    · exact hnd
    · exact savePayment_nodup st _ 201 hnd

/-- Witness for the amended C6: concrete instances of the guarded conjuncts
at `stD` — the replayed callback on the terminal record is a no-op, and a
fresh creation through `initiate` and through `postPayment` keeps the
transaction ids pairwise distinct. -/
theorem payment_transitions_witness :
    handleCallback stD "t4" "SUCCESSFUL" none = (stD, 200) ∧
    ((initiate stD
        { amount := some 5, phone := some "0700", provider := some "mtn",
          loanId := some "L4" } "u" "t5" "P5" true true).1.payments.map
      Payment.transaction_id).Nodup ∧
    ((postPayment stD "admin" "root" (some "t9") none none (some 40) none
        "P9").1.payments.map Payment.transaction_id).Nodup := by
  have h := payment_transitions stD "t4" "SUCCESSFUL" none
  exact ⟨h.2.1 payD (by decide) (by decide),
    h.2.2.2.2.1 _ "u" "t5" "P5" true true (by decide),
    h.2.2.2.2.2 "admin" "root" (some "t9") none none (some 40) none "P9"
      (by decide)⟩

/-- C9 counterexample: a request with a negative amount, a `loanId` that
matches no loan (the only loan is `"L9"`), and a caller (`"bob"`) who does
not own that loan (`loanE` belongs to `"alice"`) is accepted with 202 and a
PaymentRecord of amount -5 is created — none of the claimed checks exist. -/
theorem initiate_no_checks_counterexample :
    (initiate stE
        { amount := some (-5), phone := some "0772", provider := some "mtn",
          loanId := some "LX" } "bob" "tx9b" "P9b" true true).2 = 202 ∧
    ((initiate stE
        { amount := some (-5), phone := some "0772", provider := some "mtn",
          loanId := some "LX" } "bob" "tx9b" "P9b" true true).1.payments.map
      Payment.amount) = [-5] ∧
    stE.loans.map Loan.id = ["L9"] ∧
    loanE.student_uid = "alice" := by
  decide

/-- C9 (amended): `initiate` answers 400 — leaving the store untouched —
exactly when `amount`, `phone` or `loanId` is falsy (absent, zero or empty)
or `provider` is not `"mtn"`.  There is no positivity check, no
loan-existence check and no ownership check: any other request proceeds to
the provider. -/
theorem initiate_validation_iff (st : SysState) (req : InitiateReq)
    (u tx nid : String) (tokenOk payOk : Bool) :
    initiate st req u tx nid tokenOk payOk = (st, 400) ↔
      ((jsFalsyInt req.amount || jsFalsyStr req.phone
          || jsFalsyStr req.loanId) = true
        ∨ req.provider ≠ some "mtn") := by
  unfold initiate
  split_ifs with b1 b2 b3 b4
  · exact iff_of_true rfl (Or.inl b1)
  · exact iff_of_true rfl (Or.inr (by simpa using b2))
  · refine iff_of_false (by simp) ?_
    rintro (hc | hp)
    · exact b1 hc
    · exact hp (by simpa using b2)
  · refine iff_of_false (by simp) ?_
    rintro (hc | hp)
    · exact b1 hc
    · exact hp (by simpa using b2)
  · refine iff_of_false ?_ ?_
    · unfold savePayment insertPayment
      split_ifs <;> simp
    · rintro (hc | hp)
      · exact b1 hc
      · exact hp (by simpa using b2)

/-- The loan fields other than the stored `outstanding_balance`. -/
def sameButBalance (l l' : Loan) : Prop :=
  l'.id = l.id ∧ l'.student_uid = l.student_uid ∧ l'.amount = l.amount ∧
  l'.status = l.status ∧ l'.purpose = l.purpose

/-- Endpoint `GET /mine` ignores the stored `outstanding_balance` field: two loan
lists agreeing on everything but that field produce the same response. -/
theorem getLoansMine_stored_independent (ps : List Payment) (uid : String) :
    ∀ {ls ls' : List Loan}, List.Forall₂ sameButBalance ls ls' →
      getLoansMine { payments := ps, loans := ls' } uid
        = getLoansMine { payments := ps, loans := ls } uid := by
  intro ls ls' h
  induction h with
  | nil => rfl
  | @cons a a' la la' hrel htail ih =>
    obtain ⟨hid, huid, hamt, hst, hpur⟩ := hrel
    simp only [getLoansMine] at ih ⊢
    simp only [List.filter_cons, huid]
    by_cases hcond : (a.student_uid == uid) = true
    · simp only [hcond, if_true, List.map_cons]
      rw [ih]
      simp [hid, hamt, hst]
    · simp only [hcond, Bool.false_eq_true, if_false]
      exact ih

/-- Endpoint `GET /` (all loans) ignores the stored `outstanding_balance` field as
well. -/
theorem getLoansAll_stored_independent (ps : List Payment)
    (appA disbA : String → Option Int) :
    ∀ {ls ls' : List Loan}, List.Forall₂ sameButBalance ls ls' →
      getLoansAll { payments := ps, loans := ls' } appA disbA
        = getLoansAll { payments := ps, loans := ls } appA disbA := by
  intro ls ls' h
  induction h with
  | nil => rfl
  | @cons a a' la la' hrel htail ih =>
    obtain ⟨hid, huid, hamt, hst, hpur⟩ := hrel
    simp only [getLoansAll] at ih ⊢
    simp only [List.map_cons]
    rw [ih]
    simp [hid, huid, hamt, hst]

/-- C10 counterexample: `GET /` does not report
`max 0 (loan.amount - totalPaid)`.  For `loanF` (`amount = 0`, one
SUCCESSFUL payment of 100, application fallback amount 500) the claimed
formula gives 0, but the endpoint reports 400 (computed from the fallback
amount). -/
theorem loans_view_formula_counterexample :
    ((getLoansAll stF (fun _ => some 500) (fun _ => none)).map
      LoanView.outstanding_balance) = [400] ∧
    max 0 (loanF.amount - sumSuccessful stF.payments loanF.id) = 0 ∧
    ((400 : Int) ≠ 0) := by
  decide

/-- C10 (amended): both loan read endpoints report a ledger-derived,
non-negative outstanding balance and ignore the stored field: `GET /mine`
reports `max 0 (loan.amount - Σ successful)`, `GET /` reports
`max 0 (A - Σ successful)` where `A` is the loan amount resolved through the
application/disbursement fallbacks (`resolveAmount`), and replacing the
stored `outstanding_balance` values changes neither response. -/
theorem loans_views_ledger_derived (st : SysState) (uid : String)
    (appA disbA : String → Option Int) :
    (∀ v ∈ getLoansMine st uid, 0 ≤ v.outstanding_balance) ∧
    (∀ v ∈ getLoansAll st appA disbA, 0 ≤ v.outstanding_balance) ∧
    (List.Forall₂ (fun (l : Loan) (v : LoanView) =>
        v.outstanding_balance = max 0 (l.amount - sumSuccessful st.payments l.id))
      (st.loans.filter (fun l => l.student_uid == uid)) (getLoansMine st uid)) ∧
    (List.Forall₂ (fun (l : Loan) (v : LoanView) =>
        v.outstanding_balance = max 0 (resolveAmount l.amount (appA l.student_uid)
          (disbA l.student_uid) - sumSuccessful st.payments l.id))
      st.loans (getLoansAll st appA disbA)) ∧
    (∀ st2 : SysState, st2.payments = st.payments →
      List.Forall₂ sameButBalance st.loans st2.loans →
      getLoansMine st2 uid = getLoansMine st uid ∧
      getLoansAll st2 appA disbA = getLoansAll st appA disbA) := by
  refine ⟨?_, ?_, ?_, ?_, ?_⟩
  · intro v hv
    obtain ⟨l, _, rfl⟩ := List.mem_map.mp hv
    exact le_max_left 0 _
  · intro v hv
    obtain ⟨l, _, rfl⟩ := List.mem_map.mp hv
    exact le_max_left 0 _
  · rw [getLoansMine, List.forall₂_map_right_iff]
    exact List.forall₂_same.mpr fun a _ => rfl
  · rw [getLoansAll, List.forall₂_map_right_iff]
    exact List.forall₂_same.mpr fun a _ => rfl
  · intro st2 hp h
    obtain ⟨ps, ls⟩ := st
    obtain ⟨ps2, ls2⟩ := st2
    simp only at hp h
    subst hp
    exact ⟨getLoansMine_stored_independent ps2 uid h,
      getLoansAll_stored_independent ps2 appA disbA h⟩

/-- The state `stF` with a different stored balance on its loan. -/
def stF2 : SysState :=
  { payments := [payF], loans := [{ loanF with outstanding_balance := 123 }] }

/-- Witness for the amended C10: overwriting `loanF`'s stored balance (77 to
123) changes neither endpoint's response, and the concrete reported view has
a non-negative balance. -/
theorem loans_views_ledger_derived_witness :
    getLoansMine stF2 "s1" = getLoansMine stF "s1" ∧
    getLoansAll stF2 (fun _ => some 500) (fun _ => none)
      = getLoansAll stF (fun _ => some 500) (fun _ => none) ∧
    (0 : Int) ≤ (LoanView.mk "LF" 0 0 100 "active").outstanding_balance := by
  have h := loans_views_ledger_derived stF "s1" (fun _ => some 500) (fun _ => none)
  have h5 := h.2.2.2.2 stF2 rfl
    (List.Forall₂.cons (by exact ⟨rfl, rfl, rfl, rfl, rfl⟩) List.Forall₂.nil)
  exact ⟨h5.1, h5.2, h.1 _ (by decide)⟩

end AlumniBackend
